import Mathlib

/-!
# Verification of the `storm` ATS analyzer (`src/ats.py`)

A shallow embedding of the `ProfessionalATSAnalyzer` class from `src/ats.py`
into Lean 4, together with proofs settling the frozen claims about it.

Modelling conventions:

* Python numbers are embedded as `ℚ` (exact arithmetic).  The single claim
  that is genuinely about IEEE-754 binary64 rounding (the weight-sum claim)
  is settled against a separate, explicitly named binary64 model
  (`get_professional_weights_fp`) built on a round-to-nearest-even
  rounding function for 53-bit significands.
* Python strings are embedded as Lean `String`; `str.lower` maps
  `Char.toLower` over the characters, `str.split()` splits on whitespace
  runs, and `a in b` is substring containment, all implemented concretely.
* `re` word characters (`\w`) are modelled as ASCII alphanumerics,
  underscore, and any non-ASCII character (the inputs of interest are
  ASCII, where this is exact).
* The handful of genuinely complicated regular expressions
  (e-mail/phone/date patterns, the `required`/`preferred` capture-group
  scans, and the five format-compatibility pattern counters) are embedded
  as an explicit oracle parameter `RegexOracle`: a record of functions,
  one per `re.findall`/`re.search` call site, each field documented with
  the exact pattern it stands for.  Theorems quantify over the oracle (or
  constrain it by hypotheses that are evident facts about the concrete
  patterns, e.g. that a pattern anchored on the literal word `required`
  finds nothing in the empty string).
* `difflib.SequenceMatcher.ratio` is embedded by the Ratcliff–Obershelp
  algorithm exactly as `difflib` implements it for short inputs (no
  autojunk, which only activates for second arguments of length ≥ 200 —
  never the case at the call sites analysed here).
* `datetime.now()` is modelled as an explicit `now : String` input; the
  returned report stores it in its `timestamp` field.
* Exceptions: all fallible code paths in the source catch their own
  exceptions and return values, hence every embedded function is total;
  totality of the embedding is the formal counterpart of the
  "never raises" contract.
-/

namespace Storm

/-! ## Python string primitives -/

/-- `str.lower()` (ASCII case folding, applied characterwise). -/
def pyLower (s : String) : String := String.mk (s.toList.map Char.toLower)

/-- A `\w` word character: ASCII alphanumeric, underscore, or any
non-ASCII character (approximating Unicode `\w` for the ASCII inputs
analysed here). -/
def wordChar (c : Char) : Bool := c.isAlphanum || c = '_' || 127 < c.toNat

/-- Does list `l` start with list `p`? -/
def startsWithList : List Char → List Char → Bool
  | [], _ => true
  | _ :: _, [] => false
  | p :: ps, c :: cs => p = c && startsWithList ps cs

/-- Substring containment on character lists: Python's `needle in haystack`. -/
def containsList (needle : List Char) : List Char → Bool
  | [] => startsWithList needle []
  | c :: cs => startsWithList needle (c :: cs) || containsList needle cs

/-- Python's `needle in haystack` on strings. -/
def strContains (haystack needle : String) : Bool :=
  containsList needle.toList haystack.toList

/-- `re.search(r'\bw\b', t)`-style search: `w` occurs in `t` with no word
character adjacent on either side.  `prev` is the character preceding the
current scan position (`none` at the start of the text). -/
def hasBoundedAt (w rest : List Char) (prev : Option Char) : Bool :=
  startsWithList w rest &&
    (match prev with | none => true | some c => !wordChar c) &&
    (match rest.drop w.length with | [] => true | c :: _ => !wordChar c)

/-- Scan helper for `hasBoundedWord`. -/
def hasBoundedAux (w : List Char) : Option Char → List Char → Bool
  | prev, [] => hasBoundedAt w [] prev
  | prev, c :: cs => hasBoundedAt w (c :: cs) prev || hasBoundedAux w (some c) cs

/-- `re.search` of `\b<word>\b` (word made of word characters) in `text`. -/
def hasBoundedWord (word text : String) : Bool :=
  hasBoundedAux word.toList none text.toList

/-- `str.split()` helper: accumulates the current (reversed) token. -/
def pySplitAux : List Char → List Char → List String
  | [], [] => []
  | [], acc => [String.mk acc.reverse]
  | c :: cs, acc =>
    if c.isWhitespace then
      match acc with
      | [] => pySplitAux cs []
      | _ => String.mk acc.reverse :: pySplitAux cs []
    else pySplitAux cs (c :: acc)

/-- Python `str.split()` with no argument: split on whitespace runs,
dropping empty tokens. -/
def pySplit (s : String) : List String := pySplitAux s.toList []

/-- Python `str.strip()`: drop leading and trailing whitespace. -/
def pyStrip (s : String) : String :=
  String.mk (((s.toList.dropWhile Char.isWhitespace).reverse.dropWhile
    Char.isWhitespace).reverse)

/-- Maximal word-character runs of a character list, in order. -/
def wordRuns : List Char → List Char → List (List Char)
  | [], [] => []
  | [], acc => [acc.reverse]
  | c :: cs, acc =>
    if wordChar c then wordRuns cs (c :: acc)
    else match acc with
      | [] => wordRuns cs []
      | _ => acc.reverse :: wordRuns cs []

/-- `re.findall(r'\b[a-zA-Z]{2,}\b', s)`: a maximal word-character run
matches exactly when it is entirely ASCII-alphabetic and has length ≥ 2
(word boundaries only exist at the edges of maximal runs). -/
def alphaWords (s : String) : List String :=
  ((wordRuns s.toList []).filter
    (fun r => r.all Char.isAlpha && 2 ≤ r.length)).map String.mk

/-! ## difflib.SequenceMatcher (Ratcliff–Obershelp) -/

/-- Length of the longest common prefix of two character lists. -/
def commonPrefixLen : List Char → List Char → Nat
  | a :: as, b :: bs => if a = b then commonPrefixLen as bs + 1 else 0
  | _, _ => 0

/-- All candidate match positions `(i, j, size)` where `size` is the length
of the longest common substring of `a` and `b` starting at `a[i]`/`b[j]`,
enumerated with `i` ascending then `j` ascending. -/
def flmCandidates (a b : List Char) : List (Nat × Nat × Nat) :=
  (List.range a.length).flatMap fun i =>
    (List.range b.length).map fun j =>
      (i, j, commonPrefixLen (a.drop i) (b.drop j))

/-- `SequenceMatcher.find_longest_match` over the whole of `a` and `b`:
the longest match, ties broken by smallest `i` then smallest `j`
(difflib scans end positions in ascending `(i, j)` order and keeps the
first strictly larger size). -/
def findLongestMatch (a b : List Char) : Nat × Nat × Nat :=
  (flmCandidates a b).foldl
    (fun best c => if best.2.2 < c.2.2 then c else best) (0, 0, 0)

/-- Total size of all matching blocks (`sum(b.size for b in
get_matching_blocks())`), by the recursive divide at the longest match.
Fuel-driven recursion: every recursive call strictly decreases
`a.length + b.length` (the longest match has positive size and lies inside
both lists), so the initial fuel `a.length + b.length + 1` never runs out. -/
def matchingTotalAux : Nat → List Char → List Char → Nat
  | 0, _, _ => 0
  | fuel + 1, a, b =>
    let m := findLongestMatch a b
    if m.2.2 = 0 then 0
    else
      matchingTotalAux fuel (a.take m.1) (b.take m.2.1) + m.2.2 +
        matchingTotalAux fuel (a.drop (m.1 + m.2.2)) (b.drop (m.2.1 + m.2.2))

/-- Total matched characters between `a` and `b` (difflib's `M`). -/
def matchingTotal (a b : List Char) : Nat :=
  matchingTotalAux (a.length + b.length + 1) a b

/-- `difflib.SequenceMatcher(None, a, b).ratio()` = `2M / (len(a)+len(b))`,
and 1 when both strings are empty (difflib's `_calculate_ratio`). -/
def seqRatio (a b : String) : ℚ :=
  let la := a.toList.length
  let lb := b.toList.length
  if la + lb = 0 then 1
  else (2 * (matchingTotal a.toList b.toList) : ℚ) / (la + lb : ℚ)

/-- The comparison `SequenceMatcher(None, a, b).ratio() > num/den`, computed
entirely in `ℕ` (cross-multiplied), so that it evaluates by `decide`.
`ratioGt_iff` proves it equivalent to the `ℚ` comparison against `seqRatio`. -/
def ratioGt (a b : String) (num den : ℕ) : Bool :=
  let la := a.toList.length
  let lb := b.toList.length
  if la + lb = 0 then decide (num < den)
  else decide (num * (la + lb) < den * (2 * matchingTotal a.toList b.toList))

/-- `ratioGt` computes exactly the claim `seqRatio a b > num/den`. -/
theorem ratioGt_iff (a b : String) (num den : ℕ) (hd : 0 < den) :
    ratioGt a b num den = true ↔ (num : ℚ) / den < seqRatio a b := by
  have hdq : (0 : ℚ) < den := by exact_mod_cast hd
  unfold ratioGt seqRatio
  dsimp only
  split_ifs with h
  · simp only [decide_eq_true_eq]
    rw [div_lt_one hdq]
    exact ⟨fun hn => by exact_mod_cast hn, fun hn => by exact_mod_cast hn⟩
  · have hpos : 0 < a.toList.length + b.toList.length := Nat.pos_of_ne_zero h
    have hq : (0 : ℚ) < (a.toList.length : ℚ) + (b.toList.length : ℚ) := by
      exact_mod_cast hpos
    simp only [decide_eq_true_eq]
    rw [div_lt_div_iff₀ hdq hq]
    constructor
    · intro hn
      have hn' : ((num * (a.toList.length + b.toList.length) : ℕ) : ℚ) <
          ((den * (2 * matchingTotal a.toList b.toList) : ℕ) : ℚ) := by exact_mod_cast hn
      push_cast at hn'
      linarith
    · intro hn
      have hn' : ((num : ℚ)) * ((a.toList.length : ℚ) + (b.toList.length : ℚ)) <
          (den : ℚ) * (2 * (matchingTotal a.toList b.toList : ℚ)) := by linarith
      exact_mod_cast hn'

/-! ## Rounding and the binary64 model

Python's floats are IEEE-754 binary64 with round-to-nearest, ties-to-even.
For almost all claims the scores are modelled in exact `ℚ`; the one claim
about the exact sum of the adjusted weights is settled against
`get_professional_weights_fp` below, which rounds every literal and every
`+=`/`-=` result to the nearest 53-bit-significand dyadic rational, exactly
as binary64 does for the magnitudes involved (no overflow/underflow). -/

/-- Nearest integer to `q`, ties to even. -/
def roundHalfEvenInt (q : ℚ) : ℤ :=
  let fl := ⌊q⌋
  let frac := q - fl
  if frac < 1 / 2 then fl
  else if 1 / 2 < frac then fl + 1
  else if fl % 2 = 0 then fl else fl + 1

/-- Python `round(x, 1)`: nearest multiple of `1/10`, ties to even
(idealized over `ℚ`; the decimal re-rounding of binary64 agrees on the
magnitudes that occur here). -/
def round1 (q : ℚ) : ℚ := (roundHalfEvenInt (q * 10) : ℚ) / 10

/-- Binade search: the least `k` in the candidate list with `1 ≤ q * 2^k`,
so `q ∈ [2^(-k), 2^(-k+1))`.  A plain list makes the recursion unfold by
`simp`; exponents up to 20 cover every quantity in the weight computation
(all lie in `[0.05, 1)` or are handled by the zero case). -/
def binadeFrom : List ℕ → ℚ → ℕ
  | [], _ => 0
  | k :: ks, q => if 1 ≤ q * 2 ^ k then k else binadeFrom ks q

/-- Least `k ≤ 20` with `q * 2^k ≥ 1`. -/
def binade (q : ℚ) : ℕ :=
  binadeFrom [0, 1, 2, 3, 4, 5, 6, 7, 8, 9, 10, 11, 12, 13, 14, 15, 16, 17, 18, 19, 20] q

/-- Round a positive rational in `[2^(-20), 2)` to the nearest binary64
value (53 significant bits, ties to even); `0` maps to `0`.  For `q` in
binade `[2^(-k), 2^(-k+1))` the representable doubles are the multiples of
`2^(-52-k)`; if rounding lands on the upper binade boundary the result is
a power of two, which is again representable, so this is exactly IEEE
round-to-nearest-even on this range. -/
def roundDouble (q : ℚ) : ℚ :=
  if q ≤ 0 then 0
  else
    let prec : ℕ := 52 + binade q
    (roundHalfEvenInt (q * 2 ^ prec) : ℚ) / 2 ^ prec

/-- The binary64 value of a positive decimal literal. -/
def dbl (q : ℚ) : ℚ := roundDouble q

/-- Binary64 addition (exact sum, then one rounding). -/
def fadd (a b : ℚ) : ℚ := roundDouble (a + b)

/-- Binary64 subtraction (exact difference, then one rounding). -/
def fsub (a b : ℚ) : ℚ := roundDouble (a - b)

/-! ## Static data (`load_industry_skill_database` and friends) -/

/-- `load_industry_skill_database`: category name → canonical skill strings,
in source order. -/
def skill_database : List (String × List String) :=
  [("programming_languages",
    ["Python", "Java", "JavaScript", "TypeScript", "C++", "C#", "PHP", "Ruby", "Go", "Rust",
     "Swift", "Kotlin", "Scala", "R", "MATLAB", "Perl", "Shell", "PowerShell", "Dart",
     "Objective-C"]),
   ("web_frameworks",
    ["React", "Angular", "Vue.js", "Next.js", "Gatsby", "Svelte", "Django", "Flask", "FastAPI",
     "Spring Boot", "Express.js", "Node.js", "Laravel", "Ruby on Rails", "ASP.NET", "Blazor"]),
   ("databases",
    ["MySQL", "PostgreSQL", "MongoDB", "SQLite", "Oracle", "SQL Server", "Redis",
     "Elasticsearch", "Cassandra", "DynamoDB", "Firebase", "MariaDB", "CouchDB", "Neo4j",
     "InfluxDB"]),
   ("cloud_platforms",
    ["AWS", "Microsoft Azure", "Google Cloud Platform", "Heroku", "DigitalOcean", "Linode",
     "Oracle Cloud", "IBM Cloud", "Alibaba Cloud", "CloudFlare"]),
   ("devops_tools",
    ["Docker", "Kubernetes", "Jenkins", "GitLab CI", "GitHub Actions", "Travis CI", "CircleCI",
     "Ansible", "Terraform", "Chef", "Puppet", "Vagrant", "Prometheus", "Grafana"]),
   ("data_science",
    ["Machine Learning", "Deep Learning", "Neural Networks", "TensorFlow", "PyTorch", "Keras",
     "Scikit-learn", "Pandas", "NumPy", "Matplotlib", "Seaborn", "Jupyter", "Apache Spark"]),
   ("mobile_development",
    ["iOS Development", "Android Development", "React Native", "Flutter", "Xamarin",
     "Ionic", "Cordova", "SwiftUI", "Kotlin Multiplatform"]),
   ("soft_skills",
    ["Leadership", "Communication", "Problem Solving", "Critical Thinking", "Teamwork",
     "Project Management", "Time Management", "Adaptability", "Creativity",
     "Analytical Thinking"]),
   ("project_management",
    ["Agile", "Scrum", "Kanban", "Waterfall", "JIRA", "Trello", "Asana", "Monday.com",
     "Microsoft Project", "Slack", "Confluence"]),
   ("cybersecurity",
    ["Information Security", "Penetration Testing", "Vulnerability Assessment", "CISSP",
     "CEH", "CISM", "Security Auditing", "Incident Response", "Risk Management"])]

/-- `load_standard_headers`. -/
def standard_headers : List String :=
  ["experience", "education", "skills", "summary", "contact", "projects", "achievements"]

/-- `load_industry_keywords`. -/
def industry_keywords : List String :=
  ["agile", "scrum", "ci/cd", "microservices", "api", "database", "frontend", "backend"]

/-- `determine_role_level`: "senior" / "entry" / "mid" by substring probes
on the lowercased text. -/
def determine_role_level (text : String) : String :=
  let t := pyLower text
  if ["senior", "lead", "principal", "manager"].any (fun w => strContains t w) then "senior"
  else if ["junior", "entry", "graduate", "intern"].any (fun w => strContains t w) then "entry"
  else "mid"

/-- `determine_resume_level` delegates to `determine_role_level`. -/
def determine_resume_level (resume_content : String) : String :=
  determine_role_level resume_content

/-- `determine_job_type`: "technical" / "general" by substring probes. -/
def determine_job_type (job_description : String) : String :=
  let t := pyLower job_description
  if ["developer", "engineer", "programmer", "technical"].any (fun w => strContains t w) then
    "technical"
  else "general"

/-! ## The regex oracle

The five sub-score calculators perform a handful of `re` searches whose
full regular-expression semantics (alternation, lazy quantifiers, capture
groups) would be a verification project of their own.  Each such call site
is embedded as one field of `RegexOracle`, documented with the exact
pattern it stands for; theorems quantify over the oracle or constrain it
by hypotheses that are evident facts about the concrete pattern.  All the
other string analysis (substring probes, `\b`-bounded word search,
`[a-zA-Z]{2,}` tokenization, `str.split`, difflib ratios) is implemented
concretely above. -/

structure RegexOracle where
  /-- `re.findall(r'(?:required?|must\s+have|essential)[\s\w]*?([a-zA-Z][a-zA-Z\s]+[a-zA-Z])', jd)`
  — the single capture group per match, in match order. -/
  findCritical1 : String → List String
  /-- `re.findall(r'(\w+(?:\s+\w+)*)\s+(?:required?|essential|mandatory)', jd)`
  — source treats each match as a 2-tuple (`match[0] if match[0] else match[1]`),
  although this second pattern has a single group; the oracle returns the
  pair the source destructures. -/
  findCritical2 : String → List (String × String)
  /-- `re.findall(r'(?:preferred|desired|nice\s+to\s+have)[\s\w]*?([a-zA-Z][a-zA-Z\s]+[a-zA-Z])', jd)`. -/
  findImportant : String → List String
  /-- `re.search(r'\b[A-Za-z0-9._%+-]+@[A-Za-z0-9.-]+\.[A-Z|a-z]{2,}\b', resume)` — e-mail found. -/
  emailFound : String → Bool
  /-- `re.search(r'\b(?:\+?1[-.\s]?)?\(?[0-9]{3}\)?[-.\s]?[0-9]{3}[-.\s]?[0-9]{4}\b', resume)` — phone found. -/
  phoneFound : String → Bool
  /-- any of the three employment-date patterns (year ranges, year–present,
  month-year) matches the lowercased resume. -/
  dateFound : String → Bool
  /-- `len(re.findall(r'[bullet glyphs]', resume, re.MULTILINE))` — count of
  non-standard bullet characters. -/
  countBullets : String → ℕ
  /-- count of special formatting characters (braces, pipe, tilde, backquote). -/
  countSpecial : String → ℕ
  /-- `len(re.findall(r'\n\s*\n', resume, re.MULTILINE))` — blank-line spacing. -/
  countSpacing : String → ℕ
  /-- `len(re.findall(r'^[A-Z\s]+:?\s*$', resume, re.MULTILINE))` — all-caps headers. -/
  countHeaders : String → ℕ
  /-- `len(re.findall(r'\b\d{4}\b', resume, re.MULTILINE))` — four-digit year tokens. -/
  countDates : String → ℕ
  /-- total count over the five quantifiable-achievement patterns of
  `calculate_content_quality` (percentages, dollar amounts, large numbers,
  time periods, achievement verbs with numbers), case-insensitive. -/
  countMetrics : String → ℕ

/-- The all-empty oracle: every search misses, every count is `0`.  On the
empty string (and on strings without digits, currency or bullet glyphs)
this is exactly what the concrete patterns return. -/
def trivOracle : RegexOracle :=
  ⟨fun _ => [], fun _ => [], fun _ => [], fun _ => false, fun _ => false, fun _ => false,
   fun _ => 0, fun _ => 0, fun _ => 0, fun _ => 0, fun _ => 0, fun _ => 0⟩

/-! ## Keyword and skill extraction -/

/-- Python-dict lookup with default (`d.get(k, 0)`) on an association list. -/
def dictGetD : List (String × ℕ) → String → ℕ
  | [], _ => 0
  | (k, v) :: rest, key => if k = key then v else dictGetD rest key

/-- Python-dict membership (`k in d`). -/
def dictHasKey : List (String × ℕ) → String → Bool
  | [], _ => false
  | (k, _) :: rest, key => k = key || dictHasKey rest key

/-- Python-dict assignment `d[k] = v`: update in place if present
(preserving insertion order), else append. -/
def dictSet : List (String × ℕ) → String → ℕ → List (String × ℕ)
  | [], key, v => [(key, v)]
  | (k, w) :: rest, key, v =>
    if k = key then (key, v) :: rest else (k, w) :: dictSet rest key v

/-- `re.sub(r'[^\w\s]', '', m).strip()` followed by the `len > 2` filter:
the cleaning step applied to every captured phrase. -/
def cleanMatch (m : String) : String :=
  pyStrip (String.mk (m.toList.filter (fun c => wordChar c || c.isWhitespace)))

/-- `keywords[clean] = keywords.get(clean, 0) + w` guarded by `len(clean) > 2`. -/
def addKeyword (d : List (String × ℕ)) (m : String) (w : ℕ) : List (String × ℕ) :=
  let clean := cleanMatch m
  if 2 < clean.toList.length then dictSet d clean (dictGetD d clean + w) else d

/-- All skills of the database in order, lowercased (`skill_words`). -/
def skill_words : List String :=
  (skill_database.flatMap (fun cat => cat.2)).map pyLower

/-- `extract_weighted_keywords`: weight 3 for `required`-style captures,
weight 2 for `preferred`-style captures, weight 1 for database skills that
occur verbatim in the lowercased job description and are not already keys.
The two `findall` scans are supplied by the oracle; cleaning, weighting and
dictionary building are concrete. -/
def extract_weighted_keywords (o : RegexOracle) (job_description : String) : List (String × ℕ) :=
  let jdLower := pyLower job_description
  let d : List (String × ℕ) := []
  let d := (o.findCritical1 jdLower).foldl (fun d m => addKeyword d m 3) d
  let d := (o.findCritical2 jdLower).foldl
    (fun d m => addKeyword d (if m.1 ≠ "" then m.1 else m.2) 3) d
  let d := (o.findImportant jdLower).foldl (fun d m => addKeyword d m 2) d
  skill_words.foldl
    (fun d skill =>
      if strContains jdLower skill && !dictHasKey d skill then dictSet d skill 1 else d) d

/-- `extract_resume_keywords`: single alphabetic words (length ≥ 2) plus
adjacent-token bigrams (both tokens of length > 2), deduplicated.  The
source wraps the concatenation in `list(set(...))`; the set's iteration
order is immaterial at every use site (membership tests and `any`), and is
modelled as first-occurrence deduplication. -/
def extract_resume_keywords (resume_content : String) : List String :=
  let words := alphaWords (pyLower resume_content)
  let tokens := pySplit (pyLower resume_content)
  let phrases := (List.range (tokens.length - 1)).filterMap fun i =>
    match tokens[i]?, tokens[i + 1]? with
    | some a, some b =>
      if 2 < a.toList.length && 2 < b.toList.length then some (a ++ " " ++ b) else none
    | _, _ => none
  (words ++ phrases).dedup

/-- `extract_professional_skills`: a database skill is extracted when it
occurs as a lowercase substring of the text, or when some whitespace token
of the text has `SequenceMatcher` ratio `> 0.85` against it. -/
def extract_professional_skills (text : String) : List String :=
  let textLower := pyLower text
  let tokens := pySplit textLower
  ((skill_database.flatMap (fun cat => cat.2)).filter fun skill =>
    strContains textLower (pyLower skill) ||
      tokens.any (fun w => ratioGt (pyLower skill) w 85 100)).dedup

/-- `categorize_skill`'s fixed category grouping. -/
def categoryGroup (category : String) : Option String :=
  if ["programming_languages", "databases", "cloud_platforms", "devops_tools"].contains category
  then some "technical_hard"
  else if ["web_frameworks", "data_science", "mobile_development"].contains category then
    some "technical_soft"
  else if ["cybersecurity", "project_management"].contains category then some "domain_specific"
  else none

/-- Loop of `categorize_skill`: the skill (NOT lowercased — the source
compares the original-case `skill`, not its computed `skill_lower`, against
the lowercased database lists) is looked up category by category; a hit in
a category outside the three groups (i.e. `soft_skills`) falls through the
`if/elif` chain without returning and the loop continues. -/
def categorizeAux (skill : String) : List (String × List String) → String
  | [] => "general_professional"
  | (cat, ls) :: rest =>
    if (ls.map pyLower).contains skill then
      match categoryGroup cat with
      | some g => g
      | none => categorizeAux skill rest
    else categorizeAux skill rest

/-- `categorize_skill`. -/
def categorize_skill (skill : String) : String := categorizeAux skill skill_database

/-- `find_skill_match`: fuzzy containment of a skill in the resume skill
list at ratio `> 0.8`. -/
def find_skill_match (skill : String) (resume_skills : List String) : Bool :=
  resume_skills.any fun rs => ratioGt (pyLower skill) (pyLower rs) 80 100

/-- `check_contextual_match`. -/
def check_contextual_match (keyword resume_content : String) : Bool :=
  strContains (pyLower resume_content) (pyLower keyword)

/-- `calculate_keyword_density_penalty` — declared no-op in the source. -/
def calculate_keyword_density_penalty (_resume_content : String)
    (_job_keywords : List (String × ℕ)) : ℚ := 0

/-- `calculate_exact_matches` — placeholder constant in the source. -/
def calculate_exact_matches (_jk : List (String × ℕ)) (_rk : List String) : ℕ := 8

/-- `calculate_semantic_matches` — placeholder constant in the source. -/
def calculate_semantic_matches (_jk : List (String × ℕ)) (_rk : List String) : ℕ := 5

/-- `calculate_contextual_matches` — placeholder constant in the source. -/
def calculate_contextual_matches (_jk : List (String × ℕ)) (_rc : String) : ℕ := 3

/-- `count_industry_terminology` — placeholder constant in the source. -/
def count_industry_terminology (_resume_content : String) : ℕ := 8

/-! ## Sub-score calculators -/

/-- One section of `analyze_resume_parsing`'s `standard_sections` loop:
any of the three patterns `\b{s}\b`, `{s}:` (plain substring) and the
plural `\b{s}s\b` (`\bexperiences?\b` for "experience") matches. -/
def sectionFound (content_lower : String) (s : String) : Bool :=
  hasBoundedWord s content_lower || strContains content_lower (s ++ ":") ||
    (if s = "experience" then
      hasBoundedWord "experience" content_lower || hasBoundedWord "experiences" content_lower
    else hasBoundedWord (s ++ "s") content_lower)

/-- `analyze_resume_parsing`: up to 40 points for the five standard
sections, 15 + 15 for e-mail/phone, 20 for an employment-date pattern, 10
for clean ASCII text (dropped when non-ASCII characters exceed 5% of the
content length — compared exactly, cross-multiplied), capped at 100. -/
def analyze_resume_parsing (o : RegexOracle) (resume_content : String) : ℚ :=
  let content_lower := pyLower resume_content
  let standard_sections := ["experience", "education", "skills", "summary", "contact"]
  let found_sections := (standard_sections.filter (sectionFound content_lower)).length
  let section_score : ℚ := ((found_sections : ℚ) / (standard_sections.length : ℚ)) * 40
  let contact_score : ℚ :=
    (if o.emailFound resume_content then 15 else 0) +
      (if o.phoneFound resume_content then 15 else 0)
  let date_score : ℚ := if o.dateFound content_lower then 20 else 0
  let nonAscii := (resume_content.toList.filter (fun c => 127 < c.toNat)).length
  let text_quality_score : ℚ := if 5 * resume_content.toList.length < 100 * nonAscii then 0 else 10
  min 100 (section_score + contact_score + date_score + text_quality_score)

/-- The per-keyword match tier of `calculate_keyword_relevance` (body of
its `for keyword, weight in job_keywords.items()` loop): 100 for an exact
case-insensitive membership in the resume keyword set, 80 for a
`SequenceMatcher` ratio `> 0.85` against some resume keyword, 60 for a
substring (contextual) match in the raw resume text, otherwise 0. -/
def keywordMatchScore (resume_keywords : List String) (resume_content keyword : String) : ℚ :=
  if resume_keywords.any (fun rk => pyLower rk = pyLower keyword) then 100
  else if resume_keywords.any (fun rk => ratioGt (pyLower keyword) (pyLower rk) 85 100) then 80
  else if check_contextual_match keyword resume_content then 60
  else 0

/-- `calculate_keyword_relevance`: neutral 70 when no job keywords; else
the weight-averaged match tiers scaled to 0–100, minus the (no-op) density
penalty, clamped into `[0, 100]`.  (The source's three unused local
bindings of the placeholder matchers are dead code and not bound here.) -/
def calculate_keyword_relevance (o : RegexOracle) (resume_content job_description : String) : ℚ :=
  let job_keywords := extract_weighted_keywords o job_description
  let resume_keywords := extract_resume_keywords resume_content
  if job_keywords = [] then 70
  else
    let total_weighted_score : ℚ := job_keywords.foldl
      (fun acc kw => acc + keywordMatchScore resume_keywords resume_content kw.1 * (kw.2 : ℚ)) 0
    let total_possible_weight : ℚ := job_keywords.foldl
      (fun acc kw => acc + 100 * (kw.2 : ℚ)) 0
    let density_penalty := calculate_keyword_density_penalty resume_content job_keywords
    let final_score : ℚ :=
      if 0 < total_possible_weight then total_weighted_score / total_possible_weight * 100 else 0
    min 100 (max 0 (final_score - density_penalty))

/-- Per-category score of `calculate_skills_alignment`: neutral 80 for an
empty category, else the matched fraction scaled to 100. -/
def skillCategoryScore (resume_skills skills : List String) : ℚ :=
  if skills = [] then 80
  else ((skills.filter (fun s => find_skill_match s resume_skills)).length : ℚ)
    / (skills.length : ℚ) * 100

/-- `calculate_skills_alignment`: neutral 75 without job skills; else the
category scores blended 0.4/0.3/0.2/0.1, capped at 100. -/
def calculate_skills_alignment (resume_content job_description : String) : ℚ :=
  let job_skills := extract_professional_skills job_description
  let resume_skills := extract_professional_skills resume_content
  if job_skills = [] then 75
  else
    let th := job_skills.filter (fun s => categorize_skill s = "technical_hard")
    let ts := job_skills.filter (fun s => categorize_skill s = "technical_soft")
    let ds := job_skills.filter (fun s => categorize_skill s = "domain_specific")
    let gp := job_skills.filter (fun s => categorize_skill s = "general_professional")
    let total := skillCategoryScore resume_skills th * 0.4 +
      skillCategoryScore resume_skills ts * 0.3 +
      skillCategoryScore resume_skills ds * 0.2 +
      skillCategoryScore resume_skills gp * 0.1
    min 100 total

/-- Years/industries pair returned by the experience extractors. -/
structure ExperienceInfo where
  years : ℚ
  industries : List String

/-- `extract_experience_requirements` — placeholder constants in the source. -/
def extract_experience_requirements (_job_description : String) : ExperienceInfo :=
  ⟨3, ["technology", "software"]⟩

/-- `extract_resume_experience` — placeholder constants in the source. -/
def extract_resume_experience (_resume_content : String) : ExperienceInfo :=
  ⟨4, ["technology", "web development"]⟩

/-- `calculate_years_match`. -/
def calculate_years_match (required_years candidate_years : ℚ) : ℚ :=
  if required_years ≤ candidate_years then 95
  else if required_years * 0.7 ≤ candidate_years then 75
  else 50

/-- `len(set(a).intersection(set(b)))`. -/
def setIntersectionSize (a b : List String) : ℕ :=
  (a.dedup.filter (fun x => b.contains x)).length

/-- `calculate_industry_relevance`: set-intersection size over the (list)
length of the required industries, scaled to 100; neutral 80 when the job
lists no industries. -/
def calculate_industry_relevance (job_industries resume_industries : List String) : ℚ :=
  if job_industries = [] then 80
  else ((setIntersectionSize job_industries resume_industries : ℚ)
    / (job_industries.length : ℚ)) * 100

/-- `analyze_role_progression` — placeholder constant in the source. -/
def analyze_role_progression (_resume_content _job_level : String) : ℚ := 80

/-- `calculate_responsibility_alignment` — placeholder constant in the source. -/
def calculate_responsibility_alignment (_job_description _resume_content : String) : ℚ := 75

/-- `calculate_experience_alignment`: 0.3/0.25/0.25/0.2 blend of the
years, industry, progression and responsibility scores, capped at 100. -/
def calculate_experience_alignment (resume_content job_description : String) : ℚ :=
  let job_experience := extract_experience_requirements job_description
  let resume_experience := extract_resume_experience resume_content
  let job_level := determine_role_level job_description
  let _resume_level := determine_resume_level resume_content
  let years_score := calculate_years_match job_experience.years resume_experience.years
  let industry_score :=
    calculate_industry_relevance job_experience.industries resume_experience.industries
  let progression_score := analyze_role_progression resume_content job_level
  let responsibility_score :=
    calculate_responsibility_alignment job_description resume_content
  min 100 (years_score * 0.3 + industry_score * 0.25 + progression_score * 0.25 +
    responsibility_score * 0.2)

/-- The five pattern-driven deltas of `calculate_format_compatibility`'s
`compatibility_checks` loop: a positive check with any match adds
`min(impact*2, 10) = 10`; a negative check adds `impact * min(matches, 5)`. -/
def checksDelta (o : RegexOracle) (resume_content : String) : ℚ :=
  (-5) * (min (o.countBullets resume_content) 5 : ℕ) +
    (-3) * (min (o.countSpecial resume_content) 5 : ℕ) +
    (if 0 < o.countSpacing resume_content then (10 : ℚ) else 0) +
    (if 0 < o.countHeaders resume_content then (10 : ℚ) else 0) +
    (if 0 < o.countDates resume_content then (10 : ℚ) else 0)

/-- `calculate_format_compatibility`: base score plus the pattern deltas,
then the word-count adjustment (−15 below 200 words, −10 above 800, +10
within 300–600), clamped to `[0, 100]`. -/
def calculate_format_compatibility (o : RegexOracle) (resume_content : String)
    (base_score : ℚ) : ℚ :=
  let score := base_score + checksDelta o resume_content
  let word_count := (pySplit resume_content).length
  let score :=
    if word_count < 200 then score - 15
    else if 800 < word_count then score - 10
    else if 300 ≤ word_count ∧ word_count ≤ 600 then score + 10
    else score
  max 0 (min 100 score)

/-- The fixed strong-action-verb list of `calculate_content_quality`. -/
def strong_action_verbs : List String :=
  ["achieved", "managed", "led", "developed", "implemented", "created",
   "designed", "optimized", "increased", "reduced", "improved", "delivered"]

/-- `calculate_content_quality`: base 70, plus tiered bonuses for
quantifiable achievements (oracle count), strong action verbs (concrete
substring probes) and industry terminology (constant 8 in the source),
capped at 100. -/
def calculate_content_quality (o : RegexOracle) (resume_content : String) : ℚ :=
  let score : ℚ := 70
  let quantifiable_achievements := o.countMetrics resume_content
  let score :=
    if 5 ≤ quantifiable_achievements then score + 20
    else if 2 ≤ quantifiable_achievements then score + 10
    else score
  let action_verb_count :=
    (strong_action_verbs.filter (fun v => strContains (pyLower resume_content) v)).length
  let score :=
    if 8 ≤ action_verb_count then score + 15
    else if 4 ≤ action_verb_count then score + 8
    else score
  let industry_terms := count_industry_terminology resume_content
  let score :=
    if 10 ≤ industry_terms then score + 10
    else if 5 ≤ industry_terms then score + 5
    else score
  min 100 score

/-- `calculate_section_completeness` — constant 85 in the source
("Simplified for now"); the `user_profile` argument is ignored. -/
def calculate_section_completeness (_resume_content : String)
    (_user_profile : Option Unit) : ℚ := 85

/-! ## Score aggregation -/

/-- The seven-component weight set of `get_professional_weights`. -/
structure Weights where
  parsing : ℚ
  keywords : ℚ
  skills : ℚ
  experience : ℚ
  formatting : ℚ
  content : ℚ
  completeness : ℚ
deriving DecidableEq

/-- Sum of the seven weights (as exact rationals). -/
def sumWeights (w : Weights) : ℚ :=
  w.parsing + w.keywords + w.skills + w.experience + w.formatting + w.content + w.completeness

/-- `get_professional_weights` in exact arithmetic: base weights
.15/.25/.25/.15/.05/.10/.05, shifted for senior/entry job level and for a
technical job type, never re-normalized. -/
def get_professional_weights (job_description : String) : Weights :=
  let job_level := determine_role_level job_description
  let job_type := determine_job_type job_description
  let w : Weights := ⟨0.15, 0.25, 0.25, 0.15, 0.05, 0.10, 0.05⟩
  let w :=
    if job_level = "senior" then
      { w with experience := w.experience + 0.05, content := w.content + 0.05,
               keywords := w.keywords - 0.05, completeness := w.completeness - 0.05 }
    else if job_level = "entry" then
      { w with skills := w.skills + 0.05, keywords := w.keywords + 0.05,
               experience := w.experience - 0.10 }
    else w
  if job_type = "technical" then
    { w with skills := w.skills + 0.05, keywords := w.keywords + 0.05,
             content := w.content - 0.10 }
  else w

/-- `get_professional_weights` under IEEE-754 binary64 semantics: every
decimal literal is converted to its nearest double and every `+=`/`-=`
rounds its exact result to the nearest double (ties to even), exactly as
Python executes it.  Identical control flow to `get_professional_weights`. -/
def get_professional_weights_fp (job_description : String) : Weights :=
  let job_level := determine_role_level job_description
  let job_type := determine_job_type job_description
  let w : Weights := ⟨dbl 0.15, dbl 0.25, dbl 0.25, dbl 0.15, dbl 0.05, dbl 0.10, dbl 0.05⟩
  let w :=
    if job_level = "senior" then
      { w with experience := fadd w.experience (dbl 0.05),
               content := fadd w.content (dbl 0.05),
               keywords := fsub w.keywords (dbl 0.05),
               completeness := fsub w.completeness (dbl 0.05) }
    else if job_level = "entry" then
      { w with skills := fadd w.skills (dbl 0.05), keywords := fadd w.keywords (dbl 0.05),
               experience := fsub w.experience (dbl 0.10) }
    else w
  if job_type = "technical" then
    { w with skills := fadd w.skills (dbl 0.05), keywords := fadd w.keywords (dbl 0.05),
             content := fsub w.content (dbl 0.10) }
  else w

/-- `get_professional_grade`: inclusive lower bounds 95/90/85/80/75/70/65/60/50. -/
def get_professional_grade (score : ℚ) : String :=
  if 95 ≤ score then "A+"
  else if 90 ≤ score then "A"
  else if 85 ≤ score then "A-"
  else if 80 ≤ score then "B+"
  else if 75 ≤ score then "B"
  else if 70 ≤ score then "B-"
  else if 65 ≤ score then "C+"
  else if 60 ≤ score then "C"
  else if 50 ≤ score then "D"
  else "F"

/-- `calculate_pass_probability`. -/
def calculate_pass_probability (score : ℚ) : String :=
  if 90 ≤ score then "95-98%"
  else if 80 ≤ score then "85-90%"
  else if 70 ≤ score then "70-80%"
  else if 60 ≤ score then "50-65%"
  else if 50 ≤ score then "30-45%"
  else "10-25%"

/-- `get_status_message` (the emoji prefixes of the source file are
reproduced byte-for-byte as they appear in the repository). -/
def get_status_message (score : ℚ) : String :=
  if 90 ≤ score then
    "ðŸŸ¢ Excellent - Your resume will pass most ATS systems and reach human recruiters"
  else if 80 ≤ score then
    "ðŸŸ¢ Very Good - Strong ATS compatibility with minor optimization opportunities"
  else if 70 ≤ score then
    "ðŸŸ¡ Good - Will pass many ATS systems but has room for improvement"
  else if 60 ≤ score then
    "ðŸŸ  Fair - Some ATS compatibility issues that should be addressed"
  else if 50 ≤ score then
    "ðŸ”´ Poor - Significant ATS optimization needed to improve visibility"
  else
    "âŒ Critical - Major ATS compatibility problems requiring immediate attention"

/-- `estimate_competitive_standing`. -/
def estimate_competitive_standing (score : ℚ) : String :=
  if 90 ≤ score then "Top 10% of applicants"
  else if 80 ≤ score then "Top 25% of applicants"
  else if 70 ≤ score then "Above average applicant pool"
  else if 60 ≤ score then "Average applicant pool"
  else "Below average applicant pool"

/-! ## Document extraction -/

/-- A file on disk, abstracted to what the extractor can observe: its
(lowercased) extension from `os.path.splitext`, and the outcome of reading
it with each library — `some pages`/`some paragraphs` when the read
succeeds, `none` when the library raises (corrupt or unreadable file). -/
structure FileRead where
  ext : String
  pdfPages : Option (List String)
  docxParas : Option (List String)

/-- `{text, formatting_score}` as returned by `extract_text_from_resume`. -/
structure ExtractionResult where
  text : String
  formatting_score : ℚ
deriving DecidableEq

/-- `extract_from_pdf`: page texts each followed by a newline; the
`except:` arm yields the diagnostic string. -/
def extract_from_pdf (f : FileRead) : String :=
  match f.pdfPages with
  | some pages => String.join (pages.map (fun p => p ++ "\n"))
  | none => "Could not extract PDF text"

/-- `extract_from_docx`: paragraph texts joined by newlines; the `except:`
arm yields the diagnostic string. -/
def extract_from_docx (f : FileRead) : String :=
  match f.docxParas with
  | some paras => String.intercalate "\n" paras
  | none => "Could not extract DOCX text"

/-- `extract_text_from_resume`: dispatch on the extension.  The function's
own `except` arm (returning `{"", 0}`) is unreachable: `os.path.splitext`
does not raise on strings and both inner extractors catch all their
exceptions, so the reachable behaviour is exactly this dispatch. -/
def extract_text_from_resume (f : FileRead) : ExtractionResult :=
  if f.ext = ".pdf" then ⟨extract_from_pdf f, 85⟩
  else if f.ext = ".docx" ∨ f.ext = ".doc" then ⟨extract_from_docx f, 90⟩
  else ⟨"Unsupported file format", 0⟩

/-- The `resume_text` argument of `calculate_professional_ats_score`:
either raw text, or a path that exists on disk (the `os.path.exists`
branch), abstracted to the `FileRead` the extractor sees there. -/
inductive ResumeInput where
  | text (s : String)
  | path (f : FileRead)

/-- The file-path dispatch at the top of `calculate_professional_ats_score`:
raw text keeps the default base formatting score 85; a path goes through
the Document Extractor. -/
def resolveResume : ResumeInput → String × ℚ
  | .text s => (s, 85)
  | .path f =>
    let r := extract_text_from_resume f
    (r.text, r.formatting_score)

/-! ## Report builder and the top-level analysis -/

/-- `identify_critical_issues`: threshold-triggered issue strings, in
source order. -/
def identify_critical_issues (parsing_score keyword_relevance skills_alignment
    format_compatibility : ℚ) : List String :=
  (if parsing_score < 60 then
    ["Poor resume structure - ATS cannot parse sections properly"] else []) ++
  (if keyword_relevance < 50 then
    ["Insufficient keyword matching with job requirements"] else []) ++
  (if skills_alignment < 50 then
    ["Skills do not align well with job requirements"] else []) ++
  (if format_compatibility < 60 then
    ["Format incompatible with ATS systems"] else [])

/-- One entry of `generate_optimization_plan`'s recommendation list. -/
structure Recommendation where
  priority : String
  category : String
  action : String
  impact : String
deriving DecidableEq

/-- `generate_optimization_plan` (the experience and formatting arguments
are accepted and ignored, as in the source). -/
def generate_optimization_plan (parsing_score keyword_relevance skills_alignment
    _experience_match _format_compatibility : ℚ) : List Recommendation :=
  (if parsing_score < 70 then
    [⟨"High", "Structure", "Use standard section headers (Experience, Education, Skills)",
      "Critical for ATS parsing"⟩] else []) ++
  (if keyword_relevance < 70 then
    [⟨"High", "Keywords", "Include more job-specific keywords naturally throughout resume",
      "Increases relevance scoring"⟩] else []) ++
  (if skills_alignment < 70 then
    [⟨"High", "Skills", "Add technical skills mentioned in job posting",
      "Improves skill matching score"⟩] else [])

/-- `find_missing_elements`: of the first 10 job skills, those without a
fuzzy match among the resume skills, first 5. -/
def find_missing_elements (resume_content job_description : String) : List String :=
  let job_skills := extract_professional_skills job_description
  let resume_skills := extract_professional_skills resume_content
  (((job_skills.take 10).filter (fun s => !find_skill_match s resume_skills)).take 5)

/-- The fixed record returned by `detailed_keyword_analysis`. -/
structure KeywordAnalysis where
  matched_keywords : ℕ
  total_job_keywords : ℕ
  match_percentage : ℕ
  density_score : String
  top_missing : List String
deriving DecidableEq

/-- `detailed_keyword_analysis` — hard-coded record in the source; both
arguments are ignored. -/
def detailed_keyword_analysis (_resume_content _job_description : String) : KeywordAnalysis :=
  ⟨12, 20, 60, "Optimal", ["React", "Node.js", "AWS"]⟩

/-- One step of `create_improvement_roadmap`. -/
structure RoadmapStep where
  step : ℕ
  task : String
  estimated_impact : String
  time_needed : String
deriving DecidableEq

/-- `create_improvement_roadmap` (the skills argument is ignored, as in
the source). -/
def create_improvement_roadmap (_total_score parsing_score keyword_relevance
    _skills_alignment : ℚ) : List RoadmapStep :=
  (if parsing_score < 70 then
    [⟨1, "Fix resume structure and formatting", "+15 points", "30 minutes"⟩] else []) ++
  (if keyword_relevance < 70 then
    [⟨2, "Optimize keywords and job-specific terms", "+10-20 points", "45 minutes"⟩] else [])

/-- The seven rounded sub-scores of the report's `detailed_breakdown`. -/
structure DetailedBreakdown where
  resume_parsing : ℚ
  keyword_relevance : ℚ
  skills_alignment : ℚ
  experience_match : ℚ
  format_compatibility : ℚ
  content_quality : ℚ
  section_completeness : ℚ
deriving DecidableEq

/-- The `analysis` dictionary returned by `calculate_professional_ats_score`. -/
structure AnalysisReport where
  total_score : ℚ
  ats_grade : String
  pass_probability : String
  status_message : String
  detailed_breakdown : DetailedBreakdown
  critical_issues : List String
  optimization_recommendations : List Recommendation
  missing_elements : List String
  keyword_analysis : KeywordAnalysis
  competitive_analysis : String
  improvement_roadmap : List RoadmapStep
  timestamp : String
deriving DecidableEq

/-- `calculate_professional_ats_score`.  The wall clock consumed by
`datetime.now().isoformat()` is passed explicitly as `now`; the regex call
sites are supplied by the oracle `o`; everything else follows the source
line by line.  Totality of this definition is the embedded form of the
"never raises" contract. -/
def calculate_professional_ats_score (o : RegexOracle) (now : String)
    (resume_text : ResumeInput) (job_description : String)
    (user_profile : Option Unit) : AnalysisReport :=
  let rc := resolveResume resume_text
  let resume_content := rc.1
  let base_formatting_score := rc.2
  let parsing_score := analyze_resume_parsing o resume_content
  let keyword_relevance := calculate_keyword_relevance o resume_content job_description
  let skills_alignment := calculate_skills_alignment resume_content job_description
  let experience_match := calculate_experience_alignment resume_content job_description
  let format_compatibility :=
    calculate_format_compatibility o resume_content base_formatting_score
  let content_quality := calculate_content_quality o resume_content
  let section_completeness := calculate_section_completeness resume_content user_profile
  let weights := get_professional_weights job_description
  let total_score :=
    parsing_score * weights.parsing +
    keyword_relevance * weights.keywords +
    skills_alignment * weights.skills +
    experience_match * weights.experience +
    format_compatibility * weights.formatting +
    content_quality * weights.content +
    section_completeness * weights.completeness
  { total_score := round1 total_score
    ats_grade := get_professional_grade total_score
    pass_probability := calculate_pass_probability total_score
    status_message := get_status_message total_score
    detailed_breakdown :=
      ⟨round1 parsing_score, round1 keyword_relevance, round1 skills_alignment,
       round1 experience_match, round1 format_compatibility, round1 content_quality,
       round1 section_completeness⟩
    critical_issues := identify_critical_issues parsing_score keyword_relevance
      skills_alignment format_compatibility
    optimization_recommendations := generate_optimization_plan parsing_score
      keyword_relevance skills_alignment experience_match format_compatibility
    missing_elements := find_missing_elements resume_content job_description
    keyword_analysis := detailed_keyword_analysis resume_content job_description
    competitive_analysis := estimate_competitive_standing total_score
    improvement_roadmap := create_improvement_roadmap total_score parsing_score
      keyword_relevance skills_alignment
    timestamp := now }

/-! ## Shared lemmas -/

/-- `calculate_experience_alignment` ignores both inputs: every sub-factor
is a hard-coded constant, so the blend is always
`95*0.3 + 50*0.25 + 80*0.25 + 75*0.2 = 76`. -/
theorem experience_const (resume_content job_description : String) :
    calculate_experience_alignment resume_content job_description = 76 := by
  have h1 : setIntersectionSize ["technology", "software"]
      ["technology", "web development"] = 1 := by decide
  have h2 : (["technology", "software"] : List String) ≠ [] := by decide
  unfold calculate_experience_alignment extract_experience_requirements
    extract_resume_experience calculate_years_match calculate_industry_relevance
    analyze_role_progression calculate_responsibility_alignment
  norm_num [h1, h2]

/-- The adjusted weights are nonnegative and sum to exactly 1 in exact
arithmetic, for every job description (each of the three shifts moves as
much weight in as out). -/
theorem weights_props (job_description : String) :
    0 ≤ (get_professional_weights job_description).parsing ∧
    0 ≤ (get_professional_weights job_description).keywords ∧
    0 ≤ (get_professional_weights job_description).skills ∧
    0 ≤ (get_professional_weights job_description).experience ∧
    0 ≤ (get_professional_weights job_description).formatting ∧
    0 ≤ (get_professional_weights job_description).content ∧
    0 ≤ (get_professional_weights job_description).completeness ∧
    sumWeights (get_professional_weights job_description) = 1 := by
  unfold get_professional_weights sumWeights
  dsimp only
  split_ifs <;> norm_num

/-- `analyze_resume_parsing` stays in `[0, 100]` for every oracle. -/
theorem analyze_resume_parsing_bounds (o : RegexOracle) (resume_content : String) :
    0 ≤ analyze_resume_parsing o resume_content ∧
    analyze_resume_parsing o resume_content ≤ 100 := by
  unfold analyze_resume_parsing
  dsimp only
  refine ⟨le_min (by norm_num) ?_, min_le_left _ _⟩
  have hs : (0 : ℚ) ≤
      (((["experience", "education", "skills", "summary", "contact"].filter
        (sectionFound (pyLower resume_content))).length : ℚ) /
        ((["experience", "education", "skills", "summary", "contact"] : List String).length : ℚ))
        * 40 := by positivity
  have hc1 : (0 : ℚ) ≤ if o.emailFound resume_content then 15 else 0 := by
    split_ifs <;> norm_num
  have hc2 : (0 : ℚ) ≤ if o.phoneFound resume_content then 15 else 0 := by
    split_ifs <;> norm_num
  have hd : (0 : ℚ) ≤ if o.dateFound (pyLower resume_content) then 20 else 0 := by
    split_ifs <;> norm_num
  have hq : (0 : ℚ) ≤ if 5 * resume_content.toList.length <
      100 * (resume_content.toList.filter (fun c => 127 < c.toNat)).length then 0 else 10 := by
    split_ifs <;> norm_num
  linarith

/-- `calculate_keyword_relevance` stays in `[0, 100]` for every oracle. -/
theorem calculate_keyword_relevance_bounds (o : RegexOracle)
    (resume_content job_description : String) :
    0 ≤ calculate_keyword_relevance o resume_content job_description ∧
    calculate_keyword_relevance o resume_content job_description ≤ 100 := by
  unfold calculate_keyword_relevance calculate_keyword_density_penalty
  dsimp only
  split_ifs with h
  · norm_num
  all_goals exact ⟨le_min (by norm_num) (le_max_left _ _), min_le_left _ _⟩

/-- Each category score of the skills blend is nonnegative. -/
theorem skillCategoryScore_nonneg (resume_skills skills : List String) :
    0 ≤ skillCategoryScore resume_skills skills := by
  unfold skillCategoryScore
  split_ifs <;> positivity

/-- `calculate_skills_alignment` stays in `[0, 100]`. -/
theorem calculate_skills_alignment_bounds (resume_content job_description : String) :
    0 ≤ calculate_skills_alignment resume_content job_description ∧
    calculate_skills_alignment resume_content job_description ≤ 100 := by
  unfold calculate_skills_alignment
  dsimp only
  split_ifs with h
  · norm_num
  · refine ⟨le_min (by norm_num) ?_, min_le_left _ _⟩
    have h1 := skillCategoryScore_nonneg (extract_professional_skills resume_content)
      ((extract_professional_skills job_description).filter
        (fun s => categorize_skill s = "technical_hard"))
    have h2 := skillCategoryScore_nonneg (extract_professional_skills resume_content)
      ((extract_professional_skills job_description).filter
        (fun s => categorize_skill s = "technical_soft"))
    have h3 := skillCategoryScore_nonneg (extract_professional_skills resume_content)
      ((extract_professional_skills job_description).filter
        (fun s => categorize_skill s = "domain_specific"))
    have h4 := skillCategoryScore_nonneg (extract_professional_skills resume_content)
      ((extract_professional_skills job_description).filter
        (fun s => categorize_skill s = "general_professional"))
    linarith

/-- `calculate_format_compatibility` stays in `[0, 100]` for every oracle
and every base score. -/
theorem calculate_format_compatibility_bounds (o : RegexOracle)
    (resume_content : String) (base_score : ℚ) :
    0 ≤ calculate_format_compatibility o resume_content base_score ∧
    calculate_format_compatibility o resume_content base_score ≤ 100 := by
  unfold calculate_format_compatibility
  dsimp only
  exact ⟨le_max_left _ _, max_le (by norm_num) (min_le_left _ _)⟩

/-- `calculate_content_quality` stays in `[0, 100]` for every oracle. -/
theorem calculate_content_quality_bounds (o : RegexOracle) (resume_content : String) :
    0 ≤ calculate_content_quality o resume_content ∧
    calculate_content_quality o resume_content ≤ 100 := by
  unfold calculate_content_quality
  dsimp only
  refine ⟨le_min (by norm_num) ?_, min_le_left _ _⟩
  split_ifs <;> norm_num

/-- Nearest-integer rounding preserves a `[0, B]` window. -/
theorem roundHalfEvenInt_bounds {q : ℚ} {B : ℤ} (h0 : 0 ≤ q) (hB : q ≤ B) :
    0 ≤ roundHalfEvenInt q ∧ roundHalfEvenInt q ≤ B := by
  have hfl : (⌊q⌋ : ℚ) ≤ q := Int.floor_le q
  have hfl0 : 0 ≤ ⌊q⌋ := Int.floor_nonneg.mpr h0
  have hflB : ⌊q⌋ ≤ B := by
    have h := Int.floor_le_floor (α := ℚ) hB
    simpa using h
  unfold roundHalfEvenInt
  dsimp only
  split_ifs with h1 h2 h3
  · exact ⟨hfl0, hflB⟩
  all_goals {
    have hlt : ⌊q⌋ < B := by
      have h12 : (1 : ℚ) / 2 ≤ q - ⌊q⌋ := le_of_not_lt h1
      have hq : ((⌊q⌋ : ℚ)) < (B : ℚ) := by linarith
      exact_mod_cast hq
    exact ⟨by omega, by omega⟩ }

/-- `round(x, 1)` preserves `[0, 100]`. -/
theorem round1_bounds {x : ℚ} (h0 : 0 ≤ x) (h1 : x ≤ 100) :
    0 ≤ round1 x ∧ round1 x ≤ 100 := by
  have hb := roundHalfEvenInt_bounds (q := x * 10) (B := 1000) (by linarith) (by push_cast; linarith)
  unfold round1
  constructor
  · have : (0 : ℚ) ≤ (roundHalfEvenInt (x * 10) : ℚ) := by exact_mod_cast hb.1
    linarith
  · have : ((roundHalfEvenInt (x * 10) : ℚ)) ≤ 1000 := by exact_mod_cast hb.2
    linarith

/-- A convex-style bound: with nonnegative weights summing to 1 and every
score in `[0, 100]`, the weighted total is in `[0, 100]`. -/
theorem weighted_total_bounds (w : Weights) (p k s e f c cm : ℚ)
    (hwp : 0 ≤ w.parsing) (hwk : 0 ≤ w.keywords) (hws : 0 ≤ w.skills)
    (hwe : 0 ≤ w.experience) (hwf : 0 ≤ w.formatting) (hwc : 0 ≤ w.content)
    (hwcm : 0 ≤ w.completeness) (hsum : sumWeights w = 1)
    (hp : 0 ≤ p ∧ p ≤ 100) (hk : 0 ≤ k ∧ k ≤ 100) (hs : 0 ≤ s ∧ s ≤ 100)
    (he : 0 ≤ e ∧ e ≤ 100) (hf : 0 ≤ f ∧ f ≤ 100) (hc : 0 ≤ c ∧ c ≤ 100)
    (hcm : 0 ≤ cm ∧ cm ≤ 100) :
    0 ≤ p * w.parsing + k * w.keywords + s * w.skills + e * w.experience +
      f * w.formatting + c * w.content + cm * w.completeness ∧
    p * w.parsing + k * w.keywords + s * w.skills + e * w.experience +
      f * w.formatting + c * w.content + cm * w.completeness ≤ 100 := by
  unfold sumWeights at hsum
  constructor
  · have l1 := mul_nonneg hp.1 hwp
    have l2 := mul_nonneg hk.1 hwk
    have l3 := mul_nonneg hs.1 hws
    have l4 := mul_nonneg he.1 hwe
    have l5 := mul_nonneg hf.1 hwf
    have l6 := mul_nonneg hc.1 hwc
    have l7 := mul_nonneg hcm.1 hwcm
    linarith
  · have u1 := mul_le_mul_of_nonneg_right hp.2 hwp
    have u2 := mul_le_mul_of_nonneg_right hk.2 hwk
    have u3 := mul_le_mul_of_nonneg_right hs.2 hws
    have u4 := mul_le_mul_of_nonneg_right he.2 hwe
    have u5 := mul_le_mul_of_nonneg_right hf.2 hwf
    have u6 := mul_le_mul_of_nonneg_right hc.2 hwc
    have u7 := mul_le_mul_of_nonneg_right hcm.2 hwcm
    nlinarith

/-! ## Claim theorems -/

/-- `x` lies in the score range `[0, 100]`. -/
def inRange (x : ℚ) : Prop := 0 ≤ x ∧ x ≤ 100

/-- **C9.** For every resume text and every job description,
`calculate_experience_alignment` returns the constant 76: required
experience (3 years, fixed industries), candidate experience (4 years,
fixed industries), role-progression (80) and responsibility-alignment (75)
are hard-coded, so the years score is always 95, the industry overlap is
always 50, and the 0.3/0.25/0.25/0.2 blend is always 76. -/
theorem c9_experience_always_76 (resume_content job_description : String) :
    calculate_years_match (extract_experience_requirements job_description).years
      (extract_resume_experience resume_content).years = 95 ∧
    calculate_industry_relevance (extract_experience_requirements job_description).industries
      (extract_resume_experience resume_content).industries = 50 ∧
    calculate_experience_alignment resume_content job_description = 76 := by
  refine ⟨?_, ?_, experience_const resume_content job_description⟩
  · unfold calculate_years_match extract_experience_requirements extract_resume_experience
    norm_num
  · have h1 : setIntersectionSize ["technology", "software"]
        ["technology", "web development"] = 1 := by decide
    have h2 : (["technology", "software"] : List String) ≠ [] := by decide
    unfold calculate_industry_relevance extract_experience_requirements
      extract_resume_experience
    norm_num [h1, h2]

/-- **C10.** The `keyword_analysis` field of every returned report is the
fixed record (12 matched, 20 total, 60%, "Optimal", missing React/Node.js/
AWS): `detailed_keyword_analysis` ignores both of its arguments. -/
theorem c10_keyword_analysis_constant (o : RegexOracle) (now : String)
    (resume : ResumeInput) (job_description : String) (user_profile : Option Unit) :
    (calculate_professional_ats_score o now resume job_description
        user_profile).keyword_analysis =
      ⟨12, 20, 60, "Optimal", ["React", "Node.js", "AWS"]⟩ ∧
    ∀ rc jd, detailed_keyword_analysis rc jd =
      ⟨12, 20, 60, "Optimal", ["React", "Node.js", "AWS"]⟩ :=
  ⟨rfl, fun _ _ => rfl⟩

/-- The report with its wall-clock timestamp field blanked out. -/
def eraseTimestamp (r : AnalysisReport) : AnalysisReport := { r with timestamp := "" }

/-- **C4 (counterexample).** Two calls on identical resume text and job
description do NOT yield identical `AnalysisReport` values: the report
embeds `datetime.now().isoformat()` in its `timestamp` field, so calls at
different instants differ. -/
theorem c4_counterexample :
    calculate_professional_ats_score trivOracle "2025-01-01T00:00:00"
        (ResumeInput.text "x") "" none ≠
      calculate_professional_ats_score trivOracle "2025-01-01T00:00:01"
        (ResumeInput.text "x") "" none := by
  intro h
  have ht : ("2025-01-01T00:00:00" : String) = "2025-01-01T00:00:01" :=
    congrArg AnalysisReport.timestamp h
  exact absurd ht (by decide)

/-- **C4 (amended).** Apart from the `timestamp` field — which records the
wall-clock time of the call — the analysis is a deterministic pure function
of the inputs: two calls at arbitrary times agree on every other field. -/
theorem c4_deterministic_modulo_timestamp (o : RegexOracle) (t1 t2 : String)
    (resume : ResumeInput) (job_description : String) (user_profile : Option Unit) :
    eraseTimestamp (calculate_professional_ats_score o t1 resume job_description user_profile) =
      eraseTimestamp
        (calculate_professional_ats_score o t2 resume job_description user_profile) := rfl

/-- **C2.** Every sub-score in the returned `detailed_breakdown` and the
aggregated `total_score` lie in `[0, 100]`, for every oracle behaviour,
resume input (text or file), job description, profile and clock. -/
theorem c2_all_scores_in_range (o : RegexOracle) (now : String) (resume : ResumeInput)
    (job_description : String) (user_profile : Option Unit) :
    let r := calculate_professional_ats_score o now resume job_description user_profile
    inRange r.total_score ∧
    inRange r.detailed_breakdown.resume_parsing ∧
    inRange r.detailed_breakdown.keyword_relevance ∧
    inRange r.detailed_breakdown.skills_alignment ∧
    inRange r.detailed_breakdown.experience_match ∧
    inRange r.detailed_breakdown.format_compatibility ∧
    inRange r.detailed_breakdown.content_quality ∧
    inRange r.detailed_breakdown.section_completeness := by
  obtain ⟨hwp, hwk, hws, hwe, hwf, hwc, hwcm, hsum⟩ := weights_props job_description
  have hp := analyze_resume_parsing_bounds o (resolveResume resume).1
  have hk := calculate_keyword_relevance_bounds o (resolveResume resume).1 job_description
  have hs := calculate_skills_alignment_bounds (resolveResume resume).1 job_description
  have he : 0 ≤ calculate_experience_alignment (resolveResume resume).1 job_description ∧
      calculate_experience_alignment (resolveResume resume).1 job_description ≤ 100 := by
    rw [experience_const]; norm_num
  have hf := calculate_format_compatibility_bounds o (resolveResume resume).1
    (resolveResume resume).2
  have hc := calculate_content_quality_bounds o (resolveResume resume).1
  have hcm : 0 ≤ calculate_section_completeness (resolveResume resume).1 user_profile ∧
      calculate_section_completeness (resolveResume resume).1 user_profile ≤ 100 := by
    unfold calculate_section_completeness; norm_num
  have htot := weighted_total_bounds (get_professional_weights job_description)
    _ _ _ _ _ _ _ hwp hwk hws hwe hwf hwc hwcm hsum hp hk hs he hf hc hcm
  dsimp only
  unfold calculate_professional_ats_score
  dsimp only
  exact ⟨round1_bounds htot.1 htot.2, round1_bounds hp.1 hp.2, round1_bounds hk.1 hk.2,
    round1_bounds hs.1 hs.2, round1_bounds he.1 he.2, round1_bounds hf.1 hf.2,
    round1_bounds hc.1 hc.2, round1_bounds hcm.1 hcm.2⟩

/-- **C3.** With an empty job description, `calculate_keyword_relevance`
returns exactly 70 and `calculate_skills_alignment` exactly 75, for every
resume text.  The oracle hypotheses record the evident facts that the
`required`/`preferred` capture patterns (each anchored on a literal
marker word) find nothing in the empty string. -/
theorem c3_empty_jd_neutral_defaults (resume_content : String) (o : RegexOracle)
    (h1 : o.findCritical1 "" = []) (h2 : o.findCritical2 "" = [])
    (h3 : o.findImportant "" = []) :
    calculate_keyword_relevance o resume_content "" = 70 ∧
    calculate_skills_alignment resume_content "" = 75 := by
  constructor
  · have hjk : extract_weighted_keywords o "" = [] := by
      unfold extract_weighted_keywords
      dsimp only
      rw [show pyLower "" = "" from rfl, h1, h2, h3]
      decide
    unfold calculate_keyword_relevance
    dsimp only
    rw [hjk]
    simp
  · have hjs : extract_professional_skills "" = [] := by decide
    unfold calculate_skills_alignment
    dsimp only
    rw [hjs]
    simp

/-- Witness for C3: the concrete all-empty oracle (which is what the
patterns return on `""`) and a concrete resume. -/
theorem c3_witness :
    trivOracle.findCritical1 "" = [] ∧ trivOracle.findCritical2 "" = [] ∧
    trivOracle.findImportant "" = [] ∧
    calculate_keyword_relevance trivOracle "Experienced Python developer" "" = 70 ∧
    calculate_skills_alignment "Experienced Python developer" "" = 75 :=
  ⟨rfl, rfl, rfl,
    (c3_empty_jd_neutral_defaults "Experienced Python developer" trivOracle rfl rfl rfl).1,
    (c3_empty_jd_neutral_defaults "Experienced Python developer" trivOracle rfl rfl rfl).2⟩

/-- Rank of a grade string, for stating monotonicity of the grade map. -/
def gradeRank : String → ℕ
  | "A+" => 9
  | "A" => 8
  | "A-" => 7
  | "B+" => 6
  | "B" => 5
  | "B-" => 4
  | "C+" => 3
  | "C" => 2
  | "D" => 1
  | _ => 0

/-- Numeric characterization of the grade rank as a step function of the
score, aligned with the if-chain of `get_professional_grade`. -/
theorem gradeRank_grade_eq (s : ℚ) :
    gradeRank (get_professional_grade s) =
      if 95 ≤ s then 9 else if 90 ≤ s then 8 else if 85 ≤ s then 7 else if 80 ≤ s then 6
      else if 75 ≤ s then 5 else if 70 ≤ s then 4 else if 65 ≤ s then 3 else if 60 ≤ s then 2
      else if 50 ≤ s then 1 else 0 := by
  unfold get_professional_grade
  split_ifs <;> rfl

set_option maxHeartbeats 3000000 in
/-- **C5.** `get_professional_grade` is a pure monotone step function of
the score with inclusive lower bounds 95, 90, 85, 80, 75, 70, 65, 60, 50
for the grades "A+", "A", "A-", "B+", "B", "B-", "C+", "C", "D", and "F"
below 50; in particular 90 maps to "A" and 89.9 maps to "A-". -/
theorem c5_grade_step_function :
    (∀ s t : ℚ, s ≤ t → gradeRank (get_professional_grade s) ≤
      gradeRank (get_professional_grade t)) ∧
    get_professional_grade 90 = "A" ∧
    get_professional_grade 89.9 = "A-" ∧
    (∀ s : ℚ,
      (95 ≤ s → get_professional_grade s = "A+") ∧
      (90 ≤ s → s < 95 → get_professional_grade s = "A") ∧
      (85 ≤ s → s < 90 → get_professional_grade s = "A-") ∧
      (80 ≤ s → s < 85 → get_professional_grade s = "B+") ∧
      (75 ≤ s → s < 80 → get_professional_grade s = "B") ∧
      (70 ≤ s → s < 75 → get_professional_grade s = "B-") ∧
      (65 ≤ s → s < 70 → get_professional_grade s = "C+") ∧
      (60 ≤ s → s < 65 → get_professional_grade s = "C") ∧
      (50 ≤ s → s < 60 → get_professional_grade s = "D") ∧
      (s < 50 → get_professional_grade s = "F")) := by
  refine ⟨?_, by norm_num [get_professional_grade], by norm_num [get_professional_grade], ?_⟩
  · intro s t hst
    rw [gradeRank_grade_eq, gradeRank_grade_eq]
    split_ifs <;> first | decide | (exfalso; linarith)
  · intro s
    refine ⟨fun h1 => ?_, fun h1 h2 => ?_, fun h1 h2 => ?_, fun h1 h2 => ?_, fun h1 h2 => ?_,
      fun h1 h2 => ?_, fun h1 h2 => ?_, fun h1 h2 => ?_, fun h1 h2 => ?_, fun h1 => ?_⟩ <;>
      (unfold get_professional_grade; split_ifs <;> first | rfl | (exfalso; linarith))

/-- Witness for C5: the monotonicity and every threshold clause applied at
concrete scores. -/
theorem c5_witness :
    gradeRank (get_professional_grade 42) ≤ gradeRank (get_professional_grade 97) ∧
    get_professional_grade 97 = "A+" ∧
    get_professional_grade 92 = "A" ∧
    get_professional_grade 87 = "A-" ∧
    get_professional_grade 82 = "B+" ∧
    get_professional_grade 77 = "B" ∧
    get_professional_grade 72 = "B-" ∧
    get_professional_grade 67 = "C+" ∧
    get_professional_grade 62 = "C" ∧
    get_professional_grade 55 = "D" ∧
    get_professional_grade 42 = "F" :=
  ⟨c5_grade_step_function.1 42 97 (by norm_num),
    (c5_grade_step_function.2.2.2 97).1 (by norm_num),
    (c5_grade_step_function.2.2.2 92).2.1 (by norm_num) (by norm_num),
    (c5_grade_step_function.2.2.2 87).2.2.1 (by norm_num) (by norm_num),
    (c5_grade_step_function.2.2.2 82).2.2.2.1 (by norm_num) (by norm_num),
    (c5_grade_step_function.2.2.2 77).2.2.2.2.1 (by norm_num) (by norm_num),
    (c5_grade_step_function.2.2.2 72).2.2.2.2.2.1 (by norm_num) (by norm_num),
    (c5_grade_step_function.2.2.2 67).2.2.2.2.2.2.1 (by norm_num) (by norm_num),
    (c5_grade_step_function.2.2.2 62).2.2.2.2.2.2.2.1 (by norm_num) (by norm_num),
    (c5_grade_step_function.2.2.2 55).2.2.2.2.2.2.2.2.1 (by norm_num) (by norm_num),
    (c5_grade_step_function.2.2.2 42).2.2.2.2.2.2.2.2.2 (by norm_num)⟩

/-- **C8.** In `calculate_format_compatibility`, a 450-word resume gets the
+10 length bonus, a 150-word resume the −15 short penalty, a 900-word
resume the −10 long penalty, and the result is clamped to `[0, 100]` —
for every oracle behaviour and every base score. -/
theorem c8_format_length_adjustments :
    (∀ (o : RegexOracle) (rc : String) (b : ℚ), (pySplit rc).length = 450 →
      calculate_format_compatibility o rc b =
        max 0 (min 100 (b + checksDelta o rc + 10))) ∧
    (∀ (o : RegexOracle) (rc : String) (b : ℚ), (pySplit rc).length = 150 →
      calculate_format_compatibility o rc b =
        max 0 (min 100 (b + checksDelta o rc - 15))) ∧
    (∀ (o : RegexOracle) (rc : String) (b : ℚ), (pySplit rc).length = 900 →
      calculate_format_compatibility o rc b =
        max 0 (min 100 (b + checksDelta o rc - 10))) ∧
    (∀ (o : RegexOracle) (rc : String) (b : ℚ),
      0 ≤ calculate_format_compatibility o rc b ∧
      calculate_format_compatibility o rc b ≤ 100) := by
  refine ⟨?_, ?_, ?_, fun o rc b => calculate_format_compatibility_bounds o rc b⟩ <;>
    (intro o rc b h
     unfold calculate_format_compatibility
     dsimp only
     rw [h]
     norm_num)

/-- The character list `a a a ... a ` with `n` tokens "a", each followed
by a space. -/
def repWordChars : ℕ → List Char
  | 0 => []
  | n + 1 => 'a' :: ' ' :: repWordChars n

/-- An `n`-word resume (each word "a"; the trailing space is dropped by
`str.split()`). -/
def repWords (n : ℕ) : String := String.mk (repWordChars n)

/-- `str.split()` of `repWords n` has exactly `n` tokens. -/
theorem pySplit_repWords (n : ℕ) : pySplit (repWords n) = List.replicate n "a" := by
  have key : ∀ m : ℕ, pySplitAux (repWordChars m) [] = List.replicate m "a" := by
    intro m
    induction m with
    | zero => rfl
    | succ k ih =>
      show pySplitAux ('a' :: ' ' :: repWordChars k) [] = List.replicate (k + 1) "a"
      rw [show pySplitAux ('a' :: ' ' :: repWordChars k) [] =
        "a" :: pySplitAux (repWordChars k) [] from rfl, ih]
      rfl
  show pySplitAux (repWords n).toList [] = List.replicate n "a"
  rw [show (repWords n).toList = repWordChars n from rfl, key]

/-- Witness for C8: concrete resumes of 450/150/900 words, the all-empty
oracle and base score 85. -/
theorem c8_witness :
    (pySplit (repWords 450)).length = 450 ∧
    (pySplit (repWords 150)).length = 150 ∧
    (pySplit (repWords 900)).length = 900 ∧
    calculate_format_compatibility trivOracle (repWords 450) 85 =
      max 0 (min 100 (85 + checksDelta trivOracle (repWords 450) + 10)) ∧
    calculate_format_compatibility trivOracle (repWords 150) 85 =
      max 0 (min 100 (85 + checksDelta trivOracle (repWords 150) - 15)) ∧
    calculate_format_compatibility trivOracle (repWords 900) 85 =
      max 0 (min 100 (85 + checksDelta trivOracle (repWords 900) - 10)) ∧
    0 ≤ calculate_format_compatibility trivOracle (repWords 450) 85 ∧
    calculate_format_compatibility trivOracle (repWords 450) 85 ≤ 100 := by
  have h450 : (pySplit (repWords 450)).length = 450 := by
    rw [pySplit_repWords, List.length_replicate]
  have h150 : (pySplit (repWords 150)).length = 150 := by
    rw [pySplit_repWords, List.length_replicate]
  have h900 : (pySplit (repWords 900)).length = 900 := by
    rw [pySplit_repWords, List.length_replicate]
  exact ⟨h450, h150, h900,
    c8_format_length_adjustments.1 trivOracle (repWords 450) 85 h450,
    c8_format_length_adjustments.2.1 trivOracle (repWords 150) 85 h150,
    c8_format_length_adjustments.2.2.1 trivOracle (repWords 900) 85 h900,
    (c8_format_length_adjustments.2.2.2 trivOracle (repWords 450) 85).1,
    (c8_format_length_adjustments.2.2.2 trivOracle (repWords 450) 85).2⟩

/-- A corrupt PDF file: the extension dispatch selects PyPDF2, whose read
raises (modelled as `pdfPages = none`). -/
def corruptPdf : FileRead := ⟨".pdf", none, none⟩

/-- A corrupt Word file. -/
def corruptDocx : FileRead := ⟨".docx", none, none⟩

/-- An upload with an unsupported extension. -/
def plainTxt : FileRead := ⟨".txt", none, none⟩

/-- **C1 (counterexample).** For a corrupt PDF, `extract_text_from_resume`
returns the diagnostic text together with formatting_score **85** — not 0:
`extract_from_pdf` swallows the exception internally and the `.pdf` branch
then pairs whatever text came back with the fixed base score 85; the outer
`except` that would return score 0 never fires. -/
theorem c1_counterexample :
    (extract_text_from_resume corruptPdf).text = "Could not extract PDF text" ∧
    (extract_text_from_resume corruptPdf).formatting_score = 85 ∧
    (extract_text_from_resume corruptPdf).formatting_score ≠ 0 := by
  refine ⟨rfl, rfl, ?_⟩
  show (85 : ℚ) ≠ 0
  norm_num

/-- **C1 (amended).** On extraction failure the Document Extractor returns
a diagnostic error text together with the format's fixed base
formatting_score (85 for `.pdf`, 90 for `.docx`/`.doc`); formatting_score 0
arises only for unsupported extensions; and no extraction error propagates
out of `calculate_professional_ats_score` — analysing the failing file is
exactly analysing the diagnostic text (the embedding is total). -/
theorem c1_extraction_failure_amended (f : FileRead) :
    (f.ext = ".pdf" → f.pdfPages = none →
      extract_text_from_resume f = ⟨"Could not extract PDF text", 85⟩) ∧
    ((f.ext = ".docx" ∨ f.ext = ".doc") → f.docxParas = none →
      extract_text_from_resume f = ⟨"Could not extract DOCX text", 90⟩) ∧
    (f.ext ≠ ".pdf" → f.ext ≠ ".docx" → f.ext ≠ ".doc" →
      extract_text_from_resume f = ⟨"Unsupported file format", 0⟩) ∧
    (f.ext = ".pdf" → f.pdfPages = none →
      ∀ (o : RegexOracle) (now jd : String) (up : Option Unit),
        calculate_professional_ats_score o now (ResumeInput.path f) jd up =
          calculate_professional_ats_score o now
            (ResumeInput.text "Could not extract PDF text") jd up) := by
  refine ⟨?_, ?_, ?_, ?_⟩
  · intro h1 h2
    unfold extract_text_from_resume extract_from_pdf
    rw [h1, h2]
    simp
  · intro h1 h2
    unfold extract_text_from_resume extract_from_docx
    rcases h1 with h | h <;> rw [h, h2] <;> simp
  · intro h1 h2 h3
    unfold extract_text_from_resume
    rw [if_neg h1, if_neg (not_or.mpr ⟨h2, h3⟩)]
  · intro h1 h2 o now jd up
    have hres : extract_text_from_resume f = ⟨"Could not extract PDF text", 85⟩ := by
      unfold extract_text_from_resume extract_from_pdf
      rw [h1, h2]
      simp
    unfold calculate_professional_ats_score resolveResume
    dsimp only
    rw [hres]

/-- Witness for C1 (amended): the three concrete files, and the
failing-PDF analysis equalling the diagnostic-text analysis. -/
theorem c1_witness :
    extract_text_from_resume corruptPdf = ⟨"Could not extract PDF text", 85⟩ ∧
    extract_text_from_resume corruptDocx = ⟨"Could not extract DOCX text", 90⟩ ∧
    extract_text_from_resume plainTxt = ⟨"Unsupported file format", 0⟩ ∧
    calculate_professional_ats_score trivOracle "t" (ResumeInput.path corruptPdf) "" none =
      calculate_professional_ats_score trivOracle "t"
        (ResumeInput.text "Could not extract PDF text") "" none :=
  ⟨(c1_extraction_failure_amended corruptPdf).1 rfl rfl,
    (c1_extraction_failure_amended corruptDocx).2.1 (Or.inl rfl) rfl,
    (c1_extraction_failure_amended plainTxt).2.2.1 (by decide) (by decide) (by decide),
    (c1_extraction_failure_amended corruptPdf).2.2.2 rfl rfl trivOracle "t" "" none⟩

/-- **C6.** The weight-adjustment logic, executed in binary64 arithmetic
as Python does, can produce a weight set whose seven weights do not sum
exactly to 1: for a "senior" job description the exact (real-number) sum
of the seven stored doubles is `1 + 6/2^57`. -/
theorem c6_weights_sum_not_one :
    ∃ jd : String, sumWeights (get_professional_weights_fp jd) ≠ 1 := by
  refine ⟨"senior", ?_⟩
  have hl : determine_role_level "senior" = "senior" := by decide
  have ht : determine_job_type "senior" = "general" := by decide
  have e15 : dbl 0.15 = 5404319552844595 / 2 ^ 55 := by
    norm_num [dbl, roundDouble, binade, binadeFrom, roundHalfEvenInt]
  have e25 : dbl 0.25 = 1 / 4 := by
    norm_num [dbl, roundDouble, binade, binadeFrom, roundHalfEvenInt]
  have e05 : dbl 0.05 = 7205759403792794 / 2 ^ 57 := by
    norm_num [dbl, roundDouble, binade, binadeFrom, roundHalfEvenInt]
  have e10 : dbl 0.10 = 3602879701896397 / 2 ^ 55 := by
    norm_num [dbl, roundDouble, binade, binadeFrom, roundHalfEvenInt]
  have eExp : fadd (dbl 0.15) (dbl 0.05) = 7205759403792794 / 2 ^ 55 := by
    rw [fadd, e15, e05]
    norm_num [roundDouble, binade, binadeFrom, roundHalfEvenInt]
  have eCon : fadd (dbl 0.10) (dbl 0.05) = 5404319552844596 / 2 ^ 55 := by
    rw [fadd, e10, e05]
    norm_num [roundDouble, binade, binadeFrom, roundHalfEvenInt]
  have eKey : fsub (dbl 0.25) (dbl 0.05) = 7205759403792794 / 2 ^ 55 := by
    rw [fsub, e25, e05]
    norm_num [roundDouble, binade, binadeFrom, roundHalfEvenInt]
  have eCom : fsub (dbl 0.05) (dbl 0.05) = 0 := by
    rw [fsub, e05]
    norm_num [roundDouble]
  unfold get_professional_weights_fp sumWeights
  dsimp only
  rw [hl, ht]
  simp only [reduceIte]
  rw [eExp, eCon, eKey, eCom, e15, e25, e05, e10]
  rw [if_neg (show ¬ ("general" : String) = "technical" by decide)]
  norm_num

/-- Oracle instantiation for the C7 scenario, recording what Python's
`re.findall` returns on the lowercased job description "required python":
the critical pattern matches — `required` literally, the lazy `[\s\w]*?`
consumes the following space, and the group `[a-zA-Z][a-zA-Z\s]+[a-zA-Z]`
captures `python` — and the other two scans find nothing (no
`preferred`-style marker, and nothing precedes `required`). -/
def c7oracle : RegexOracle :=
  { trivOracle with
    findCritical1 := fun s => if s = "required python" then ["python"] else [] }

set_option maxRecDepth 8000 in
/-- **C7 (counterexample).** With the resume "Pyhton developer" and the
job description "required python" (which makes "python" a required keyword
of weight 3), the match tier assigned to the keyword is **0**, not the
80-point fuzzy tier: no exact match, no ratio above 0.85, and no substring
(contextual) match. -/
theorem c7_counterexample :
    dictGetD (extract_weighted_keywords c7oracle "required python") "python" = 3 ∧
    keywordMatchScore (extract_resume_keywords "Pyhton developer") "Pyhton developer"
      "python" = 0 ∧
    keywordMatchScore (extract_resume_keywords "Pyhton developer") "Pyhton developer"
      "python" ≠ 80 := by
  have h1 : (extract_resume_keywords "Pyhton developer").any
      (fun rk => pyLower rk = pyLower "python") = false := by decide
  have h2 : (extract_resume_keywords "Pyhton developer").any
      (fun rk => ratioGt (pyLower "python") (pyLower rk) 85 100) = false := by decide
  have h3 : check_contextual_match "python" "Pyhton developer" = false := by decide
  have hm : keywordMatchScore (extract_resume_keywords "Pyhton developer")
      "Pyhton developer" "python" = 0 := by
    unfold keywordMatchScore
    rw [h1, h2, h3]
    norm_num
  exact ⟨by decide, hm, by rw [hm]; norm_num⟩

set_option maxRecDepth 8000 in
/-- **C7 (amended).** For a resume containing the misspelling "Pyhton"
(and not "Python") against the required keyword "python", difflib's
similarity ratio is exactly `5/6 ≈ 0.833`, which is **not** above the 0.85
fuzzy threshold, so the keyword scores at the 0 tier — neither the
100-point exact tier, nor the 80-point fuzzy tier, nor the 60-point
contextual tier. -/
theorem c7_fuzzy_tier_amended :
    seqRatio "python" "pyhton" = 5 / 6 ∧
    ¬ ((85 : ℚ) / 100 < 5 / 6) ∧
    ratioGt "python" "pyhton" 85 100 = false ∧
    keywordMatchScore (extract_resume_keywords "Pyhton developer") "Pyhton developer"
      "python" = 0 := by
  have hM : matchingTotal "python".toList "pyhton".toList = 5 := by decide
  have h1 : (extract_resume_keywords "Pyhton developer").any
      (fun rk => pyLower rk = pyLower "python") = false := by decide
  have h2 : (extract_resume_keywords "Pyhton developer").any
      (fun rk => ratioGt (pyLower "python") (pyLower rk) 85 100) = false := by decide
  have h3 : check_contextual_match "python" "Pyhton developer" = false := by decide
  refine ⟨?_, by norm_num, by decide, ?_⟩
  · simp only [seqRatio, hM]
    norm_num
  · unfold keywordMatchScore
    rw [h1, h2, h3]
    norm_num

end Storm

